import Mathlib

/-!
Verification of the client-side synchronization / view-projection engine of the
`Farhanselifan/Nextjs` CRUD dashboard (`src/app/page.tsx`), against its
natural-language specification.

The TypeScript source is shallowly embedded: each relevant source function is
translated into an executable Lean definition, React state updates become
explicit state passing, `fetch` outcomes become explicit outcome values, and
the JavaScript string/array primitives used by the source
(`String.prototype.split`, `trim`, `replaceAll`, `Array.prototype.slice`,
`Number`, ...) are modelled by structurally recursive functions on `List Char`
faithful to their ECMAScript behaviour on the inputs that occur here, so that
every definition evaluates inside the kernel.
-/

/-- A user record (`type User = { id: number; name: string; email: string }`).
`id` is an integer (the spec's data model: "id: integer"). -/
structure User where
  id : Int
  name : String
  email : String
deriving DecidableEq, Repr

/-- A record as produced by `parseCSV`.  JavaScript `Number(...)` yields `NaN`
on non-numeric text, so the parsed id is an `Option Int`, `none` standing for
`NaN`; ids produced from well-formed numeric cells are `some`. -/
structure PUser where
  id : Option Int
  name : String
  email : String
deriving DecidableEq, Repr

/-- The validated form value object `{ name, email }` (`FormValues`). -/
structure FormValues where
  name : String
  email : String
deriving DecidableEq, Repr

/-- Injection of a `User` into the parse-result type (an actual integer id). -/
def toPUser (u : User) : PUser :=
  { id := some u.id, name := u.name, email := u.email }

-- ===== JavaScript string primitives on `List Char` =====

/-- JavaScript `String.prototype.trim` (whitespace at both ends; `\r`, `\n`, `\t`,
space). -/
def trimChars (l : List Char) : List Char :=
  ((l.dropWhile Char.isWhitespace).reverse.dropWhile Char.isWhitespace).reverse

/-- Split on a single separator character, JavaScript `split` semantics:
`"".split(sep) = [""]`, separators at the ends produce empty pieces. -/
def splitOnCharGo (sep : Char) : List Char → List Char → List (List Char)
  | [], cur => [cur.reverse]
  | c :: rest, cur =>
    if c = sep then cur.reverse :: splitOnCharGo sep rest []
    else splitOnCharGo sep rest (c :: cur)

/-- Model of `split(sep)` for a one-character separator. -/
def splitOnChar (sep : Char) (l : List Char) : List (List Char) :=
  splitOnCharGo sep l []

/-- Model of `replaceAll` doubling every quote (the escaping step of `toCSV`). -/
def doubleQuotes : List Char → List Char
  | [] => []
  | c :: rest =>
    if c = '"' then '"' :: '"' :: doubleQuotes rest else c :: doubleQuotes rest

/-- Model of `replaceAll` collapsing doubled quotes (the unescaping step of
`parseCSV`): left-to-right, non-overlapping. -/
def undoubleQuotes : List Char → List Char
  | '"' :: '"' :: rest => '"' :: undoubleQuotes rest
  | c :: rest => c :: undoubleQuotes rest
  | [] => []

/-- Strip one trailing `'\r'` if present (used to model `split(/\r?\n/)`). -/
def stripTrailingCR (l : List Char) : List Char :=
  match l.reverse with
  | '\r' :: r => r.reverse
  | _ => l

-- ===== CSV codec (`toCSV` / `parseCSV`, page.tsx lines 65-96) =====

/-- The helper `esc` inside `toCSV`:
`(v) => "\"" + String(v ?? "").replaceAll('"', '""') + "\""`. -/
def escChars (v : List Char) : List Char :=
  '"' :: doubleQuotes v ++ ['"']

/-- One data row of `toCSV`: `[r.id, esc(r.name), esc(r.email)].join(",")`;
`join` stringifies the integer id as its decimal representation. -/
def rowChars (r : User) : List Char :=
  (toString r.id).toList ++ ',' :: escChars r.name.toList
    ++ ',' :: escChars r.email.toList

/-- The encoder `toCSV`: header row `id,name,email`, then one row per record, joined by
`\n`. -/
def toCSV (rows : List User) : String :=
  (List.intercalate ['\n'] ("id,name,email".toList :: rows.map rowChars)).asString

/-- Models `csv.trim().split(/\r?\n/)`: split on `\n`, a directly preceding `\r`
belonging to the separator.  After `trim` (which strips `\r` and `\n` at both
ends) a piece can end in `\r` only when the source had `\r\n`, so splitting on
`\n` and stripping one trailing `\r` per piece is equivalent. -/
def splitLines (l : List Char) : List (List Char) :=
  (splitOnChar '\n' (trimChars l)).map stripTrailingCR

/-- The cell-splitting loop of `parseCSV`: every `"` toggles the in-quote flag
and is dropped; a `,` outside quotes ends the current cell; any other
character is appended to the current cell; the final cell is pushed after the
loop. -/
def splitCellsGo (cs : List Char) (cur : List Char) (inQ : Bool) : List (List Char) :=
  match cs with
  | [] => [cur]
  | c :: rest =>
    if c = '"' then splitCellsGo rest cur (!inQ)
    else if c = ',' && !inQ then cur :: splitCellsGo rest [] inQ
    else splitCellsGo rest (cur ++ [c]) inQ

/-- The `cells` array of one line. -/
def splitCells (line : List Char) : List (List Char) :=
  splitCellsGo line [] false

/-- Models `.replace(/^"|"$/g, "")`: remove one leading and one trailing quote. -/
def stripEdgeQuotes (s : List Char) : List Char :=
  let s1 := match s with
    | '"' :: r => r
    | _ => s
  match s1.reverse with
  | '"' :: r => r.reverse
  | _ => s1

/-- The accessor `get = (i) => (i >= 0 ? cells[i]?.replace(/^"|"$/g, "").replaceAll('""', '"') : undefined)`,
with `undefined` as `none` (negative column index, or index past the cells). -/
def getCell (cells : List (List Char)) (i : Int) : Option (List Char) :=
  if i ≥ 0 then (cells.get? i.toNat).map (fun s => undoubleQuotes (stripEdgeQuotes s))
  else none

/-- Digit run to a natural number. -/
def digitsVal (ds : List Char) : Nat :=
  ds.foldl (fun n c => 10 * n + (c.toNat - 48)) 0

/-- JavaScript `Number(string)` restricted to the integer grammar that occurs
in this development: surrounding whitespace is trimmed, the empty string is
`0`, an optional sign followed by decimal digits is that integer, anything
else is `NaN` (`none`).  (Float, hex and exponent syntax never arise here.) -/
def jsNumberOfChars (s : List Char) : Option Int :=
  match trimChars s with
  | [] => some 0
  | '-' :: ds =>
    if ds ≠ [] && ds.all Char.isDigit then some (-(digitsVal ds : Int)) else none
  | '+' :: ds =>
    if ds ≠ [] && ds.all Char.isDigit then some ((digitsVal ds : Int)) else none
  | ds => if ds.all Char.isDigit then some ((digitsVal ds : Int)) else none

/-- Models `Number(get(idx.id) || 0)`: an absent cell (`undefined`) or an empty cell
(falsy `""`) falls back to the number `0`; otherwise the cell text is
parsed. -/
def jsNumOfIdCell (g : Option (List Char)) : Option Int :=
  match g with
  | none => some 0
  | some [] => some 0
  | some s => jsNumberOfChars s

/-- The column indices computed from the header (`indexOf`, `-1` if absent). -/
structure ColIdx where
  id : Int
  name : Int
  email : Int
deriving DecidableEq, Repr

/-- Models `Array.prototype.indexOf` on the header cells. -/
def indexOfCells (l : List (List Char)) (x : List Char) : Int :=
  match l.findIdx? (fun h => h = x) with
  | some n => (n : Int)
  | none => -1

/-- The header row: first line (`lines.shift()`), split on `,`, each cell
trimmed and lower-cased (`h.trim().toLowerCase()`; lower-casing is per
character, the ASCII case). -/
def headerCellsOf (lines : List (List Char)) : List (List Char) :=
  (splitOnChar ',' (lines.headD [])).map (fun h => (trimChars h).map Char.toLower)

/-- The `idx` record of `parseCSV`. -/
def headerIdxOf (lines : List (List Char)) : ColIdx :=
  let header := headerCellsOf lines
  { id := indexOfCells header ("id".toList)
    name := indexOfCells header ("name".toList)
    email := indexOfCells header ("email".toList) }

/-- The body of the `for (const line of lines)` loop: split the line into
cells, then build the record with the `|| ""` / `|| 0` defaults (for the
string fields, `x || ""` coincides with defaulting `undefined` to `""`, since
the only falsy string is `""` and that default is `""` as well). -/
def parseLine (idx : ColIdx) (line : List Char) : PUser :=
  let cells := splitCells line
  { id := jsNumOfIdCell (getCell cells idx.id)
    name := ((getCell cells idx.name).getD []).asString
    email := ((getCell cells idx.email).getD []).asString }

/-- The line list of `parseCSV` after `csv.trim().split(/\r?\n/)`. -/
def csvLines (csv : String) : List (List Char) :=
  splitLines csv.toList

/-- The data lines (everything after the shifted header). -/
def dataLines (csv : String) : List (List Char) :=
  (csvLines csv).drop 1

/-- The decoder `parseCSV`: trim, split into lines, shift the header, compute column
indices, and push one record per remaining line (the loop body pushes exactly
one record per line — it never skips a line and never throws). -/
def parseCSV (csv : String) : List PUser :=
  (dataLines csv).map (parseLine (headerIdxOf (csvLines csv)))

-- ===== Optimistic mutations (`updateUser` / `removeUser`, lines 296-323) =====

/-- The optimistic step of `updateUser`:
`setUsers(v => v.map(u => u.id === id ? { ...u, ...values } : u))`. -/
def updateOptimistic (id : Int) (values : FormValues) (users : List User) : List User :=
  users.map (fun u =>
    if u.id = id then { u with name := values.name, email := values.email } else u)

/-- The record spread `{ ...u, ...values }`. -/
def applyValues (values : FormValues) (u : User) : User :=
  { u with name := values.name, email := values.email }

/-- How the `PUT` call of `updateUser` resolves. -/
inductive UpdOutcome where
  /-- The network call succeeded (`res.ok`); `data` is the parsed response
  body, `none` when `res.json()` failed (the `.catch(() => null)`). -/
  | ok (data : Option User)
  /-- The network call threw or returned non-2xx (`!res.ok`). -/
  | fail
deriving DecidableEq, Repr

/-- The users list after `updateUser(id, values)` has fully resolved.
`prev` is captured at entry (`const prev = users`), the optimistic map is
applied, then: on success with a response body whose `id` is truthy the
canonical record replaces the row; on failure `setUsers(prev)` rolls back. -/
def updateUserRun (id : Int) (values : FormValues) (users : List User)
    (o : UpdOutcome) : List User :=
  let prev := users
  let opt := updateOptimistic id values users
  match o with
  | .fail => prev
  | .ok none => opt
  | .ok (some d) =>
    if d.id ≠ 0 then opt.map (fun u => if u.id = id then d else u) else opt

/-- The optimistic step of `removeUser`:
`setUsers(v => v.filter(u => u.id !== id))`. -/
def removeOptimistic (id : Int) (users : List User) : List User :=
  users.filter (fun u => u.id ≠ id)

/-- The captured record of `removeUser`: `users.find(u => u.id === id)`. -/
def findUser (id : Int) (users : List User) : Option User :=
  users.find? (fun u => u.id = id)

/-- The `Undo` toast action of `removeUser`:
`() => { if (removed) setUsers(v => [removed, ...v]) }` — prepends the
captured record whenever it was defined, with no liveness or consumption
check in the closure itself. -/
def undoAction (removed : Option User) (users : List User) : List User :=
  match removed with
  | some r => r :: users
  | none => users

-- ===== Undo-toast lifecycle (`useToasts`, lines 99-109) =====

/-- The portion of component state relevant to one delete's undo toast:
the users list plus whether that toast is still displayed (the `setTimeout`
in `useToasts.push` removes it after 4000 ms, making the `Undo` button
unreachable). -/
structure UndoState where
  users : List User
  undoLive : Bool
deriving DecidableEq, Repr

/-- Clicking `Undo`: only possible while the toast is displayed (the button
exists only inside the rendered toast); the action itself unconditionally
prepends the captured record. -/
def clickUndo (removed : Option User) (st : UndoState) : UndoState :=
  if st.undoLive then { st with users := undoAction removed st.users } else st

/-- The toast's 4000 ms timeout firing: the toast is filtered out of the
toast list, so the `Undo` button disappears. -/
def expireToast (st : UndoState) : UndoState :=
  { st with undoLive := false }

/-- The state right after `removeUser(id)`'s optimistic step: the record is
filtered out and the `"User deleted"` toast with its `Undo` action is live. -/
def removeUserOptimistic (id : Int) (users : List User) : UndoState :=
  { users := removeOptimistic id users, undoLive := true }

-- ===== Bulk delete (`removeSelected`, lines 325-338) =====

/-- How one `fetch(DELETE)` promise settles: a rejection (network/transport
failure) or a resolved HTTP response with its `ok` flag.  `removeSelected`
never reads `res.ok`, and `Promise.all` rejects only when some promise
rejects. -/
inductive DeleteOutcome where
  | netError
  | response (ok : Bool)
deriving DecidableEq, Repr

/-- Whether an outcome makes `Promise.all` reject. -/
def DeleteOutcome.rejects : DeleteOutcome → Bool
  | .netError => true
  | .response _ => false

/-- Result of a finished `removeSelected` run: final users list, final
selection, and the toast that was pushed. -/
structure BulkResult where
  users : List User
  selected : List Int
  failed : Bool
  msg : String
deriving DecidableEq, Repr

/-- The run of `removeSelected`, resolved: capture `ids` and `prev`, optimistically
filter out all selected ids, clear the selection, then join the concurrent
deletes.  If some delete rejected, `Promise.all` rejects and the catch block
restores `prev` and pushes the error toast; otherwise the success toast
reports the requested count (the per-response `ok` flags are never
inspected). -/
def removeSelectedRun (users : List User) (selected : List Int)
    (outcome : Int → DeleteOutcome) : BulkResult :=
  let ids := selected
  let optimistic := users.filter (fun u => ¬ ids.contains u.id)
  if ids.any (fun i => (outcome i).rejects) then
    { users := users, selected := [], failed := true, msg := "Bulk delete failed" }
  else
    { users := optimistic, selected := [], failed := false,
      msg := "Deleted " ++ toString ids.length ++ " user(s)" }

-- ===== Initial load (`fetchUsers`, lines 183-207) =====

/-- The component state touched by `fetchUsers`. -/
structure LoadState where
  users : List User
  loading : Bool
  error : Option String
  infoToasts : List String
deriving DecidableEq, Repr

/-- How the `GET /api/users` call resolves: parsed record list, or a thrown
error's message (transport failure or the `HTTP n` error on non-2xx). -/
inductive FetchRes where
  | ok (data : List User)
  | err (msg : String)
deriving DecidableEq, Repr

/-- The run of `fetchUsers`, resolved.  `memCache` is the module-level SWR cache entry
for the URL, `snapshot` the `localStorage` `users_cache` entry (parsed), both
`none` when absent.  Returns the final state together with the snapshot
written on success. -/
def fetchUsersRun (memCache : Option (List User)) (res : FetchRes)
    (snapshot : Option (List User)) (st : LoadState) :
    LoadState × Option (List User) :=
  let st1 := { st with loading := true, error := none }
  let st2 := match memCache with
    | some c => { st1 with users := c }
    | none => st1
  match res with
  | .ok data => ({ st2 with users := data, loading := false }, some data)
  | .err m =>
    match snapshot with
    | some s =>
      ({ st2 with
          users := s
          loading := false
          infoToasts := st2.infoToasts ++ ["Loaded offline cache"] }, none)
    | none => ({ st2 with error := some m, loading := false }, none)

-- ===== View projection (filter / sort / paginate, lines 256-274) =====

/-- The sortable column (`sortBy: keyof User`). -/
inductive SortKey where
  | id
  | name
  | email
deriving DecidableEq, Repr

/-- The view-state slice the projection reads (`query`, `sortBy`, `sortDir`,
`page`, `pageSize`). -/
structure ViewState where
  query : String
  sortBy : SortKey
  /-- Whether `sortDir` is `"asc"`. -/
  asc : Bool
  page : Int
  pageSize : Nat
deriving Repr

/-- Models `String.prototype.includes` as a Bool on char lists. -/
def charsInclude (hay needle : List Char) : Bool :=
  decide (needle <:+: hay)

/-- The filter predicate:
`u.name.toLowerCase().includes(q) || u.email.toLowerCase().includes(q)`
(per-character ASCII lower-casing). -/
def matchesQuery (q : List Char) (u : User) : Bool :=
  charsInclude (u.name.toList.map Char.toLower) q
    || charsInclude (u.email.toList.map Char.toLower) q

/-- The comparator body: `Intl.Collator` comparison for the string columns —
locale-dependent, so taken as a parameter `coll` — and numeric difference for
`id`; `sortDir === "asc" ? cmp : -cmp`. -/
def cmpUsers (coll : String → String → Int) (vs : ViewState) (a b : User) : Int :=
  let c := match vs.sortBy with
    | .id => a.id - b.id
    | .name => coll a.name b.name
    | .email => coll a.email b.email
  if vs.asc then c else -c

/-- Stable insertion of one element into an already-processed list: the new
element lands after every earlier element that compares `≤`, preserving
relative order of ties. -/
def insertStable (le : User → User → Bool) (x : User) : List User → List User
  | [] => [x]
  | y :: ys => if le y x then y :: insertStable le x ys else x :: y :: ys

/-- A stable comparator sort (left-to-right insertion).  JavaScript
`Array.prototype.sort` is required to be stable and, for a consistent
comparator, any stable comparator sort produces the same list; the concrete
algorithm is unobservable and the claims below do not depend on the order
produced, only on the sorted list as a whole. -/
def sortStable (le : User → User → Bool) (l : List User) : List User :=
  l.foldl (fun acc x => insertStable le x acc) []

/-- The derived `filtered` list: trim + lower-case the query; if non-empty (truthy), keep the
matching records; then sort a copy with the comparator. -/
def filteredUsers (coll : String → String → Int) (users : List User)
    (vs : ViewState) : List User :=
  let q := (trimChars vs.query.toList).map Char.toLower
  let list := if q = [] then users else users.filter (matchesQuery q)
  sortStable (fun a b => cmpUsers coll vs a b ≤ 0) list

/-- ECMAScript `Array.prototype.slice(start, end)` with possibly negative or
out-of-range indices. -/
def jsSlice (l : List User) (s e : Int) : List User :=
  let len : Int := l.length
  let s1 := if s < 0 then max (len + s) 0 else min s len
  let e1 := if e < 0 then max (len + e) 0 else min e len
  (l.drop s1.toNat).take (e1 - s1).toNat

/-- Models `pages = Math.max(1, Math.ceil(total / pageSize))` (exact rational
ceiling; the float division is exact at these magnitudes). -/
def pagesOf (total pageSize : Nat) : Nat :=
  max 1 ((total + pageSize - 1) / pageSize)

/-- The derived pagination values and page slice (lines 268-273). -/
structure Projection where
  rows : List User
  total : Nat
  pages : Nat
  pageSafe : Int
deriving Repr

/-- The full derived view: `filtered`, `total`, `pages`,
`pageSafe = Math.min(page, pages)`, `start = (pageSafe - 1) * pageSize`,
`pageRows = filtered.slice(start, start + pageSize)`. -/
def projector (coll : String → String → Int) (users : List User)
    (vs : ViewState) : Projection :=
  let filtered := filteredUsers coll users vs
  let total := filtered.length
  let pages := pagesOf total vs.pageSize
  let pageSafe : Int := min vs.page (pages : Int)
  let start := (pageSafe - 1) * (vs.pageSize : Int)
  { rows := jsSlice filtered start (start + (vs.pageSize : Int))
    total := total
    pages := pages
    pageSafe := pageSafe }

/-- The rollback of a failed optimistic mutation: `setUsers(prev)` replaces
the current list with the one captured when the mutation was submitted,
whatever has happened to the list in between. -/
def updateRollback (prev : List User) (_current : List User) : List User :=
  prev

-- ===== Helper lemmas =====

/-- The optimistic map of `updateUser` rewrites exactly the record found under
`id`, replacing its `name`/`email` with the submitted values. -/
theorem findUser_updateOptimistic (users : List User) (id : Int) (v : FormValues)
    (r : User) (h : findUser id users = some r) :
    findUser id (updateOptimistic id v users) = some (applyValues v r) := by
  have hr : r.id = id := by
    have := List.find?_some h
    simpa using this
  unfold findUser updateOptimistic
  unfold findUser at h
  rw [List.find?_map]
  have hpf : ((fun u : User => decide (u.id = id)) ∘
      (fun u : User => if u.id = id then { u with name := v.name, email := v.email } else u))
      = fun u : User => decide (u.id = id) := by
    funext u
    by_cases hu : u.id = id <;> simp [hu]
  rw [hpf, h]
  simp [applyValues, hr]

-- ===== Claim theorems =====

/-- C1: the CSV round-trip law fails on quote characters.  Evaluating the code
at the record set `[{id: 1, name: "a\"b", email: "x@y.com"}]`: the parser's
cell loop discards every `"` while toggling the in-quote flag, so the doubled
quote written by `toCSV` comes back as nothing at all and the decoded name is
`"ab"`, not `"a\"b"` — decoding the encoding is not the identity. -/
theorem csvRoundTrip_drops_quote_chars :
    parseCSV (toCSV [⟨1, "a\"b", "x@y.com"⟩]) = [⟨some 1, "ab", "x@y.com"⟩]
    ∧ parseCSV (toCSV [⟨1, "a\"b", "x@y.com"⟩])
        ≠ List.map toPUser [⟨1, "a\"b", "x@y.com"⟩] := by
  decide

/-- C2 counterexample: with records `1 ↦ "A"` and `2 ↦ "B"`, an optimistic
update of id `1` (capturing `prev = [1 ↦ A, 2 ↦ B]`) interleaved with an
optimistic delete of id `2` that succeeds, followed by the update's network
failure, rolls back via `setUsers(prev)`: the final list is not
`[1 ↦ A]` (the update's own snapshot restored, delete intact) — record `2`
reappears, because the rollback restored a globally captured previous state
of the whole set. -/
theorem rollback_restores_concurrent_delete :
    removeOptimistic 2 (updateOptimistic 1 ⟨"C", "a@x.com"⟩
        [⟨1, "A", "a@x.com"⟩, ⟨2, "B", "b@x.com"⟩])
      = [⟨1, "C", "a@x.com"⟩]
    ∧ updateRollback [⟨1, "A", "a@x.com"⟩, ⟨2, "B", "b@x.com"⟩]
        (removeOptimistic 2 (updateOptimistic 1 ⟨"C", "a@x.com"⟩
          [⟨1, "A", "a@x.com"⟩, ⟨2, "B", "b@x.com"⟩]))
      ≠ [⟨1, "A", "a@x.com"⟩]
    ∧ (⟨2, "B", "b@x.com"⟩ : User) ∈ updateRollback
        [⟨1, "A", "a@x.com"⟩, ⟨2, "B", "b@x.com"⟩]
        (removeOptimistic 2 (updateOptimistic 1 ⟨"C", "a@x.com"⟩
          [⟨1, "A", "a@x.com"⟩, ⟨2, "B", "b@x.com"⟩])) := by
  decide

/-- C2 amended: `updateUser`/`removeUser` roll a failure back with
`setUsers(prev)`, where `prev` is the whole users list captured at
submission.  For two concurrent mutations on distinct ids, the rollback of
the failing one therefore does not preserve the other's applied change: a
record deleted concurrently (present in the failing mutation's `prev`, absent
from the current list) is re-introduced by the rollback. -/
theorem updateRollback_clobbers_concurrent_delete (s0 : List User)
    (idA idB : Int) (v : FormValues) (u : User)
    (hmem : u ∈ s0) (hid : u.id = idB) :
    u ∉ removeOptimistic idB (updateOptimistic idA v s0)
    ∧ u ∈ updateRollback s0 (removeOptimistic idB (updateOptimistic idA v s0)) := by
  constructor
  · intro hin
    have := (List.mem_filter.mp hin).2
    simp [hid] at this
  · simpa [updateRollback] using hmem

/-- Witness for the amended C2 theorem at the concrete two-record scenario. -/
theorem updateRollback_clobbers_concurrent_delete_witness :
    (⟨2, "B", "b@x.com"⟩ : User) ∈ [⟨1, "A", "a@x.com"⟩, ⟨2, "B", "b@x.com"⟩]
    ∧ (⟨2, "B", "b@x.com"⟩ : User).id = 2
    ∧ ((⟨2, "B", "b@x.com"⟩ : User) ∉ removeOptimistic 2 (updateOptimistic 1
          ⟨"C", "a@x.com"⟩ [⟨1, "A", "a@x.com"⟩, ⟨2, "B", "b@x.com"⟩])
        ∧ (⟨2, "B", "b@x.com"⟩ : User) ∈ updateRollback
          [⟨1, "A", "a@x.com"⟩, ⟨2, "B", "b@x.com"⟩]
          (removeOptimistic 2 (updateOptimistic 1 ⟨"C", "a@x.com"⟩
            [⟨1, "A", "a@x.com"⟩, ⟨2, "B", "b@x.com"⟩]))) :=
  ⟨by decide, by decide,
    updateRollback_clobbers_concurrent_delete
      [⟨1, "A", "a@x.com"⟩, ⟨2, "B", "b@x.com"⟩] 1 2 ⟨"C", "a@x.com"⟩
      ⟨2, "B", "b@x.com"⟩ (by decide) (by decide)⟩

/-- C3: evaluating `removeSelected` at the failing input — one selected id
whose `DELETE` resolves with a non-2xx response (`ok = false`).  The code
never reads `res.ok`, `Promise.all` does not reject, so the record stays
removed, the selection stays cleared, no rollback happens, and the success
toast `"Deleted 1 user(s)"` is pushed instead of surfacing a failure. -/
theorem bulkDelete_ignores_http_error :
    removeSelectedRun [⟨1, "A", "a@x.com"⟩] [1] (fun _ => .response false)
      = ⟨[], [], false, "Deleted 1 user(s)"⟩ := by
  decide

/-- C4: an optimistic update is immediately visible — the record found under
`id` carries the submitted `name`/`email` (with its id unchanged) before the
network call resolves — and a failing network call rolls the list back to the
captured pre-mutation list, so the record reverts to its previous field
values. -/
theorem updateUser_optimistic_then_rollback (users : List User) (id : Int)
    (v : FormValues) (r : User) (h : findUser id users = some r) :
    findUser id (updateOptimistic id v users) = some (applyValues v r)
    ∧ (applyValues v r).name = v.name
    ∧ (applyValues v r).email = v.email
    ∧ (applyValues v r).id = r.id
    ∧ updateUserRun id v users .fail = users := by
  exact ⟨findUser_updateOptimistic users id v r h, rfl, rfl, rfl, rfl⟩

/-- Witness for C4 at the spec's own example: `{id:1, name:"A", email:"a@x.com"}`
updated with `name:"B"`. -/
theorem updateUser_optimistic_then_rollback_witness :
    findUser 1 [⟨1, "A", "a@x.com"⟩] = some ⟨1, "A", "a@x.com"⟩
    ∧ (findUser 1 (updateOptimistic 1 ⟨"B", "a@x.com"⟩ [⟨1, "A", "a@x.com"⟩])
          = some (applyValues ⟨"B", "a@x.com"⟩ ⟨1, "A", "a@x.com"⟩)
        ∧ (applyValues ⟨"B", "a@x.com"⟩ (⟨1, "A", "a@x.com"⟩ : User)).name = "B"
        ∧ (applyValues ⟨"B", "a@x.com"⟩ (⟨1, "A", "a@x.com"⟩ : User)).email = "a@x.com"
        ∧ (applyValues ⟨"B", "a@x.com"⟩ (⟨1, "A", "a@x.com"⟩ : User)).id
            = (⟨1, "A", "a@x.com"⟩ : User).id
        ∧ updateUserRun 1 ⟨"B", "a@x.com"⟩ [⟨1, "A", "a@x.com"⟩] .fail
            = [⟨1, "A", "a@x.com"⟩]) :=
  ⟨by decide,
    updateUser_optimistic_then_rollback [⟨1, "A", "a@x.com"⟩] 1
      ⟨"B", "a@x.com"⟩ ⟨1, "A", "a@x.com"⟩ (by decide)⟩

/-- C5: evaluating the code at the failing sequence.  `removeUser(5)` on
`[{id:5}]` captures `prev` and `removed`, removes the record, and pushes the
undo toast; the `DELETE` fails, so the catch restores `prev` — but nothing in
the code invalidates the still-live undo toast.  Clicking `Undo` then
prepends the captured record onto the restored list: two records with id `5`,
so id uniqueness is violated. -/
theorem undo_after_failed_delete_duplicates_id :
    clickUndo (findUser 5 [⟨5, "E", "e@x.com"⟩])
        { users := [⟨5, "E", "e@x.com"⟩]
          undoLive := (removeUserOptimistic 5 [⟨5, "E", "e@x.com"⟩]).undoLive }
      = ⟨[⟨5, "E", "e@x.com"⟩, ⟨5, "E", "e@x.com"⟩], true⟩
    ∧ ¬ (List.map User.id
          [(⟨5, "E", "e@x.com"⟩ : User), ⟨5, "E", "e@x.com"⟩]).Nodup := by
  decide

/-- C10: `removeSelected` clears the selection unconditionally — the final
selection is `[]` for every outcome of the deletes — and in the all-reject
outcome, where the catch restores the entire pre-delete list, the selection
is still `[]`. -/
theorem removeSelected_clears_selection (users : List User)
    (selected : List Int) (outcome : Int → DeleteOutcome) :
    (removeSelectedRun users selected outcome).selected = []
    ∧ (removeSelectedRun users selected (fun _ => .netError)).users = users := by
  unfold removeSelectedRun
  refine ⟨?_, ?_⟩
  · dsimp only
    split <;> rfl
  · cases selected with
    | nil =>
      simp [List.filter_eq_self]
    | cons i is =>
      simp [DeleteOutcome.rejects]

/-- C7 counterexample: deleting `{id:5}` and clicking `Undo` twice while the
toast is still inside its 4-second window inserts the captured record twice —
the token is effective on every click, not "usable at most once". -/
theorem undo_token_usable_twice :
    (clickUndo (findUser 5 [⟨5, "E", "e@x.com"⟩])
        (clickUndo (findUser 5 [⟨5, "E", "e@x.com"⟩])
          (removeUserOptimistic 5 [⟨5, "E", "e@x.com"⟩]))).users
      = [⟨5, "E", "e@x.com"⟩, ⟨5, "E", "e@x.com"⟩] := by
  decide

/-- C7 amended: within the toast's 4000 ms window, invoking the undo action
re-inserts the captured record; once the toast's timeout has removed it, the
`Undo` button no longer exists, so no consumption and no modification of the
set is possible (the code reports no explicit failure); the timeout fires
(removes the toast) at most once.  The action is, however, not single-use:
each click within the window re-inserts the record again (see the
counterexample). -/
theorem undo_within_window_only (users : List User) (id : Int) (r : User)
    (h : findUser id users = some r) :
    (clickUndo (findUser id users) (removeUserOptimistic id users)).users
      = r :: (removeUserOptimistic id users).users
    ∧ clickUndo (findUser id users) (expireToast (removeUserOptimistic id users))
      = expireToast (removeUserOptimistic id users)
    ∧ expireToast (expireToast (removeUserOptimistic id users))
      = expireToast (removeUserOptimistic id users) := by
  rw [h]
  exact ⟨rfl, rfl, rfl⟩

/-- Witness for the amended C7 theorem at the spec's `{id:5}` example. -/
theorem undo_within_window_only_witness :
    findUser 5 [⟨5, "E", "e@x.com"⟩] = some ⟨5, "E", "e@x.com"⟩
    ∧ ((clickUndo (findUser 5 [⟨5, "E", "e@x.com"⟩])
          (removeUserOptimistic 5 [⟨5, "E", "e@x.com"⟩])).users
        = ⟨5, "E", "e@x.com"⟩ :: (removeUserOptimistic 5 [⟨5, "E", "e@x.com"⟩]).users
      ∧ clickUndo (findUser 5 [⟨5, "E", "e@x.com"⟩])
          (expireToast (removeUserOptimistic 5 [⟨5, "E", "e@x.com"⟩]))
        = expireToast (removeUserOptimistic 5 [⟨5, "E", "e@x.com"⟩])
      ∧ expireToast (expireToast (removeUserOptimistic 5 [⟨5, "E", "e@x.com"⟩]))
        = expireToast (removeUserOptimistic 5 [⟨5, "E", "e@x.com"⟩])) :=
  ⟨by decide,
    undo_within_window_only [⟨5, "E", "e@x.com"⟩] 5 ⟨5, "E", "e@x.com"⟩ (by decide)⟩

/-- C8: when the initial `GET` fails with message `m` and the `users_cache`
snapshot holds `s`, `fetchUsers` (started from the initial state: empty list,
no in-memory cache) finishes not loading, with exactly `s` as the users list,
no error, and the degraded-mode toast `"Loaded offline cache"`; with no
snapshot it finishes not loading with the failure as its error and the list
still empty. -/
theorem fetchUsers_offline_fallback (s : List User) (m : String) :
    (fetchUsersRun none (.err m) (some s) ⟨[], true, none, []⟩).1
      = ⟨s, false, none, ["Loaded offline cache"]⟩
    ∧ (fetchUsersRun none (.err m) none ⟨[], true, none, []⟩).1
      = ⟨[], false, some m, []⟩ :=
  ⟨rfl, rfl⟩

/-- C9 counterexample: on `"id,name,email\n\n1,a,b"` the blank interior line
is not skipped — the loop pushes a defaulted record `{id:0, name:"", email:""}`
for it, so the output has two records where the claim requires one. -/
theorem parseCSV_blank_line_not_skipped :
    parseCSV "id,name,email\n\n1,a,b"
      = [⟨some 0, "", ""⟩, ⟨some 1, "a", "b"⟩]
    ∧ (parseCSV "id,name,email\n\n1,a,b").length ≠ 1 := by
  decide

/-- C9 amended: `parseCSV` never raises and never skips a line — it emits
exactly one record per line after the header — and missing/unknown columns
take their defaults: when the header names none of `id`, `name`, `email`,
every emitted record is `{id: 0, name: "", email: ""}` (blank or malformed
lines therefore yield this default record rather than being dropped). -/
theorem parseCSV_defaults_and_no_skip (csv : String)
    (hn : (headerIdxOf (csvLines csv)).name = -1)
    (he : (headerIdxOf (csvLines csv)).email = -1)
    (hi : (headerIdxOf (csvLines csv)).id = -1) :
    (parseCSV csv).length = (dataLines csv).length
    ∧ ∀ u ∈ parseCSV csv, u = ⟨some 0, "", ""⟩ := by
  constructor
  · simp [parseCSV]
  · intro u hu
    unfold parseCSV at hu
    obtain ⟨line, -, rfl⟩ := List.mem_map.mp hu
    rw [parseLine, hn, he, hi]
    norm_num [getCell, jsNumOfIdCell]
    rfl

/-- Witness for the amended C9 theorem: header `"x"` names no known column. -/
theorem parseCSV_defaults_and_no_skip_witness :
    (headerIdxOf (csvLines "x\na,b")).name = -1
    ∧ (headerIdxOf (csvLines "x\na,b")).email = -1
    ∧ (headerIdxOf (csvLines "x\na,b")).id = -1
    ∧ ((parseCSV "x\na,b").length = (dataLines "x\na,b").length
        ∧ ∀ u ∈ parseCSV "x\na,b", u = ⟨some 0, "", ""⟩) :=
  ⟨by decide, by decide, by decide,
    parseCSV_defaults_and_no_skip "x\na,b" (by decide) (by decide) (by decide)⟩

/-- Ceiling division on naturals via the `(a + b - 1) / b` formula used by the
embedded `pagesOf`. -/
theorem natCeilDiv_eq (a b : Nat) (hb : 0 < b) :
    ⌈(a : ℚ) / (b : ℚ)⌉₊ = (a + b - 1) / b := by
  rcases Nat.eq_zero_or_pos a with rfl | ha
  · rw [Nat.cast_zero, zero_div, Nat.ceil_zero, Nat.zero_add]
    exact (Nat.div_eq_of_lt (by omega)).symm
  · have hq : (0 : ℚ) < (b : ℚ) := by exact_mod_cast hb
    have hn1 : 1 ≤ (a + b - 1) / b := (Nat.one_le_div_iff hb).mpr (by omega)
    have key := Nat.div_add_mod (a + b - 1) b
    have hmod : (a + b - 1) % b < b := Nat.mod_lt _ hb
    rw [Nat.ceil_eq_iff (by omega)]
    constructor
    · rw [lt_div_iff₀ hq]
      have h2 : ((a + b - 1) / b - 1) * b < a := by
        have e : ((a + b - 1) / b - 1) * b = b * ((a + b - 1) / b) - b := by
          rw [Nat.sub_mul, one_mul, Nat.mul_comm]
        rw [e]
        omega
      exact_mod_cast h2
    · rw [div_le_iff₀ hq]
      have h3 : a ≤ ((a + b - 1) / b) * b := by
        rw [Nat.mul_comm]
        omega
      exact_mod_cast h3

/-- A slice at a nonnegative start of width `k` is drop-then-take. -/
theorem jsSlice_nat (l : List User) (s k : Nat) :
    jsSlice l (s : Int) ((s : Int) + (k : Int)) = (l.drop s).take k := by
  simp only [jsSlice]
  rw [if_neg (by omega), if_neg (by omega)]
  rcases le_or_lt s l.length with hs | hs
  · rw [min_eq_left (by exact_mod_cast hs : (s : Int) ≤ (l.length : Int))]
    rcases le_or_lt (s + k) l.length with hk | hk
    · rw [min_eq_left (by omega : (s : Int) + (k : Int) ≤ (l.length : Int))]
      have h1 : ((s : Int) + (k : Int) - (s : Int)).toNat = k := by omega
      have h2 : ((s : Int)).toNat = s := by omega
      rw [h1, h2]
    · rw [min_eq_right (by omega : (l.length : Int) ≤ (s : Int) + (k : Int))]
      have h1 : ((l.length : Int) - (s : Int)).toNat = l.length - s := by omega
      have h2 : ((s : Int)).toNat = s := by omega
      rw [h1, h2]
      have h3 : l.length - s = (l.drop s).length := (List.length_drop s l).symm
      rw [h3, List.take_length, List.take_of_length_le (by rw [List.length_drop]; omega)]
  · rw [min_eq_right (by exact_mod_cast hs.le : (l.length : Int) ≤ (s : Int))]
    have h2 : ((l.length : Int)).toNat = l.length := by omega
    rw [h2, List.drop_length, List.drop_eq_nil_of_le (by omega)]
    simp

/-- C6 counterexample: the projection clamps the requested page only from
above (`Math.min(page, pages)`), so at `page = 0` over a one-record set with
`pageSize = 8` the "safe" page is `0`, outside `[1, pageCount] = [1, 1]`, and
the returned rows are `[]`, not the claimed window
`[(clampedPage-1)*pageSize, +pageSize)` of the filtered list (which would be
the whole singleton). -/
theorem projector_page_zero_not_clamped :
    (projector (fun _ _ => 0) [⟨1, "a", "a@x.com"⟩] ⟨"", .name, true, 0, 8⟩).pageSafe = 0
    ∧ ¬ (1 ≤ (projector (fun _ _ => 0) [⟨1, "a", "a@x.com"⟩] ⟨"", .name, true, 0, 8⟩).pageSafe)
    ∧ (projector (fun _ _ => 0) [⟨1, "a", "a@x.com"⟩] ⟨"", .name, true, 0, 8⟩).pages = 1
    ∧ (projector (fun _ _ => 0) [⟨1, "a", "a@x.com"⟩] ⟨"", .name, true, 0, 8⟩).rows = []
    ∧ (projector (fun _ _ => 0) [⟨1, "a", "a@x.com"⟩] ⟨"", .name, true, 0, 8⟩).rows
        ≠ jsSlice (filteredUsers (fun _ _ => 0) [⟨1, "a", "a@x.com"⟩] ⟨"", .name, true, 0, 8⟩)
            ((1 - 1) * 8) ((1 - 1) * 8 + 8) := by
  decide

/-- C6 amended: for every collator, record set and view state with
`page ≥ 1` (the invariant the UI maintains) and `pageSize > 0`:
`pageCount = max(1, ⌈filteredCount / pageSize⌉)`; the safe page
`min(page, pageCount)` lies in `[1, pageCount]` (for `page ≥ 1` clamping from
above coincides with clamping into the interval); the returned rows are
exactly the window `[(pageSafe-1)·pageSize, +pageSize)` of the
filtered/sorted list; and at most `pageSize` rows are returned. -/
theorem projector_paginates (coll : String → String → Int) (users : List User)
    (vs : ViewState) (hp : 1 ≤ vs.page) (hps : 0 < vs.pageSize) :
    (projector coll users vs).pages
      = max 1 ⌈((projector coll users vs).total : ℚ) / (vs.pageSize : ℚ)⌉₊
    ∧ 1 ≤ (projector coll users vs).pageSafe
    ∧ (projector coll users vs).pageSafe ≤ ((projector coll users vs).pages : Int)
    ∧ (projector coll users vs).rows
      = ((filteredUsers coll users vs).drop
          (((projector coll users vs).pageSafe - 1).toNat * vs.pageSize)).take vs.pageSize
    ∧ (projector coll users vs).rows.length ≤ vs.pageSize := by
  simp only [projector]
  set F := filteredUsers coll users vs with hF
  set pg := pagesOf F.length vs.pageSize with hpg
  set p := min vs.page (pg : Int) with hp'
  have hpages1 : 1 ≤ pg := by
    rw [hpg, pagesOf]
    exact le_max_left _ _
  have hsafe1 : 1 ≤ p := by
    rw [hp']
    omega
  have e1 : p - 1 = (((p - 1).toNat : ℕ) : ℤ) := by omega
  have hrows : jsSlice F ((p - 1) * (vs.pageSize : ℤ))
        ((p - 1) * (vs.pageSize : ℤ) + (vs.pageSize : ℤ))
      = (F.drop ((p - 1).toNat * vs.pageSize)).take vs.pageSize := by
    rw [e1]
    rw [show ((((p - 1).toNat : ℕ) : ℤ)) * (vs.pageSize : ℤ)
        = (((p - 1).toNat * vs.pageSize : ℕ) : ℤ) by push_cast; ring]
    exact jsSlice_nat F ((p - 1).toNat * vs.pageSize) vs.pageSize
  refine ⟨?_, hsafe1, ?_, hrows, ?_⟩
  · rw [natCeilDiv_eq _ _ hps, hpg, pagesOf]
  · rw [hp']
    exact min_le_right _ _
  · rw [hrows]
    calc ((F.drop ((p - 1).toNat * vs.pageSize)).take vs.pageSize).length
        = min vs.pageSize (F.drop ((p - 1).toNat * vs.pageSize)).length :=
          List.length_take _ _
      _ ≤ vs.pageSize := min_le_left _ _

/-- Witness for the amended C6 theorem at a concrete two-record set,
`page = 1`, `pageSize = 1`. -/
theorem projector_paginates_witness :
    1 ≤ (⟨"", .id, true, 1, 1⟩ : ViewState).page
    ∧ 0 < (⟨"", .id, true, 1, 1⟩ : ViewState).pageSize
    ∧ ((projector (fun _ _ => 0) [⟨1, "a", "a@x.com"⟩, ⟨2, "b", "b@x.com"⟩]
          ⟨"", .id, true, 1, 1⟩).pages
        = max 1 ⌈((projector (fun _ _ => 0) [⟨1, "a", "a@x.com"⟩, ⟨2, "b", "b@x.com"⟩]
              ⟨"", .id, true, 1, 1⟩).total : ℚ)
            / ((⟨"", .id, true, 1, 1⟩ : ViewState).pageSize : ℚ)⌉₊
      ∧ 1 ≤ (projector (fun _ _ => 0) [⟨1, "a", "a@x.com"⟩, ⟨2, "b", "b@x.com"⟩]
          ⟨"", .id, true, 1, 1⟩).pageSafe
      ∧ (projector (fun _ _ => 0) [⟨1, "a", "a@x.com"⟩, ⟨2, "b", "b@x.com"⟩]
            ⟨"", .id, true, 1, 1⟩).pageSafe
          ≤ ((projector (fun _ _ => 0) [⟨1, "a", "a@x.com"⟩, ⟨2, "b", "b@x.com"⟩]
            ⟨"", .id, true, 1, 1⟩).pages : Int)
      ∧ (projector (fun _ _ => 0) [⟨1, "a", "a@x.com"⟩, ⟨2, "b", "b@x.com"⟩]
            ⟨"", .id, true, 1, 1⟩).rows
          = ((filteredUsers (fun _ _ => 0) [⟨1, "a", "a@x.com"⟩, ⟨2, "b", "b@x.com"⟩]
              ⟨"", .id, true, 1, 1⟩).drop
              (((projector (fun _ _ => 0) [⟨1, "a", "a@x.com"⟩, ⟨2, "b", "b@x.com"⟩]
                  ⟨"", .id, true, 1, 1⟩).pageSafe - 1).toNat
                * (⟨"", .id, true, 1, 1⟩ : ViewState).pageSize)).take
            (⟨"", .id, true, 1, 1⟩ : ViewState).pageSize
      ∧ (projector (fun _ _ => 0) [⟨1, "a", "a@x.com"⟩, ⟨2, "b", "b@x.com"⟩]
            ⟨"", .id, true, 1, 1⟩).rows.length
          ≤ (⟨"", .id, true, 1, 1⟩ : ViewState).pageSize) :=
  ⟨by decide, by decide,
    projector_paginates (fun _ _ => 0) [⟨1, "a", "a@x.com"⟩, ⟨2, "b", "b@x.com"⟩]
      ⟨"", .id, true, 1, 1⟩ (by decide) (by decide)⟩
